import Mathlib

/-!
Verification development for the two benchmarking scripts
`benchmark.py` and `benchmark_pii_comparison.py`.

The scripts are embedded shallowly:
* wall-clock durations returned by `time.perf_counter()` differences are
  oracle inputs of type `ℚ` (the clock is monotone, so they are nonnegative
  where assumed);
* the remote call's outcome is an oracle input `ResponseBody ⊕ Exc`
  (a parsed JSON response body, or a raised exception carrying `str(e)`);
* Python `re` pattern matching is embedded by a small backtracking engine
  over `List Char` with Python's leftmost, greedy-with-backtracking match
  semantics, and the four fixed PII patterns are translated node by node.
-/

/-- Substring test on character lists: does `needle` occur contiguously in
`hay`?  Embeds Python's `needle in hay`. -/
def contains_sub (hay needle : List Char) : Bool :=
  match hay with
  | [] => needle.isEmpty
  | _ :: t => needle.isPrefixOf hay || contains_sub t needle

/-- Embeds `"guardrail" in s.lower()` from both scripts (`str.lower`
applied character by character, as it acts on these ASCII strings). -/
def contains_guardrail_ci (s : String) : Bool :=
  contains_sub (s.toList.map Char.toLower) ("guardrail".toList)

/-- Embeds `statistics.mean` (only ever applied to nonempty lists in the
scripts; total here with the junk value `0/0 = 0` on `[]`). -/
def pymean (l : List ℚ) : ℚ := l.sum / (l.length : ℚ)

/-- Embeds Python's `max(...)` on a list (only applied to nonempty lists in
the scripts; total here with junk value `0` on `[]`). -/
def pymax : List ℚ → ℚ
  | [] => 0
  | x :: xs => xs.foldl max x

/-- Python truthiness of the `error : Optional[str]` field: `not r.error`
holds exactly when the field is `None` or the empty string.  The analyzers
select "successful" results with `if not r.error`. -/
def is_falsy_error : Option String → Bool
  | none => true
  | some s => s.isEmpty

/-- Insert into an ascending list, keeping earlier elements in front of
equal later ones (stability, as Python's sort guarantees). -/
def insertSorted (x : ℚ) : List ℚ → List ℚ
  | [] => [x]
  | y :: ys => if x ≤ y then x :: y :: ys else y :: insertSorted x ys

/-- Embeds Python's `sorted(...)`: a stable ascending sort (insertion sort
here — the characterization below shows it is an ascending permutation of
its input, which pins the same list `sorted` returns). -/
def pysorted (l : List ℚ) : List ℚ := l.foldr insertSorted []

namespace Re

/-- The regular-expression constructors needed by the four PII patterns of
`benchmark_pii_comparison.py`:
* `cls p` — a single character of the class `p`;
* `exactly p n` — `p{n}`, exactly `n` characters of a class (deterministic);
* `atLeast p n` — `p{n,}` greedy with backtracking (`p+` is `atLeast p 1`);
* `opt a` — `a?` greedy (tries the present alternative first);
* `seq a b` — concatenation;
* `bound` — `\b`, a word boundary. -/
inductive RE where
  | cls (p : Char → Bool)
  | exactly (p : Char → Bool) (n : Nat)
  | atLeast (p : Char → Bool) (n : Nat)
  | opt (a : RE)
  | seq (a b : RE)
  | bound

/-- `\d` (ASCII, as the scripts' inputs are ASCII). -/
def isDigitCh (c : Char) : Bool := '0' ≤ c && c ≤ '9'

/-- `[a-zA-Z]`. -/
def isAsciiAlpha (c : Char) : Bool := ('a' ≤ c && c ≤ 'z') || ('A' ≤ c && c ≤ 'Z')

/-- `\w` for the purpose of `\b`: `[a-zA-Z0-9_]`. -/
def isWordChar (c : Char) : Bool := isAsciiAlpha c || isDigitCh c || c = '_'

/-- `\s` (ASCII whitespace as in Python `re`). -/
def isSpaceCh (c : Char) : Bool :=
  c = ' ' || c = '\t' || c = '\n' || c = '\r' || c = '\x0b' || c = '\x0c'

/-- The separator class `[-.\s]` used by the phone/ssn/card patterns. -/
def isSep (c : Char) : Bool := c = '-' || c = '.' || isSpaceCh c

/-- `[a-zA-Z0-9._%+-]`, the local part of the email pattern. -/
def isEmailLocal (c : Char) : Bool :=
  isAsciiAlpha c || isDigitCh c || c = '.' || c = '_' || c = '%' || c = '+' || c = '-'

/-- `[a-zA-Z0-9.-]`, the domain part of the email pattern. -/
def isEmailDomain (c : Char) : Bool :=
  isAsciiAlpha c || isDigitCh c || c = '.' || c = '-'

/-- States reachable by consuming `0, 1, 2, …` characters of the class `p`
from `s` (each state is the preceding character and the remaining input),
in increasing order of consumption. -/
def greedyRun (p : Char → Bool) (prev : Option Char) (s : List Char) :
    List (Option Char × List Char) :=
  match s with
  | [] => [(prev, [])]
  | c :: t => (prev, s) :: (if p c then greedyRun p (some c) t else [])

/-- Try the continuation on each state, first to succeed wins. -/
def firstSome (l : List (Option Char × List Char))
    (k : Option Char → List Char → Option (List Char)) : Option (List Char) :=
  match l with
  | [] => none
  | (pv, rest) :: more =>
    match k pv rest with
    | some r => some r
    | none => firstSome more k

/-- Consume exactly `n` characters of the class `p`. -/
def consumeExact (p : Char → Bool) : Nat → Option Char → List Char →
    (Option Char → List Char → Option (List Char)) → Option (List Char)
  | 0, prev, s, k => k prev s
  | n + 1, _, s, k =>
    match s with
    | c :: t => if p c then consumeExact p n (some c) t k else none
    | [] => none

/-- Backtracking matcher in continuation-passing style.  `prev` is the
character immediately before the current position (for `\b`); alternatives
are tried in Python's preference order (greedy: longer first, `?` present
first), and the first way of matching that lets the continuation succeed
wins — exactly Python `re`'s backtracking order. -/
def matchHere : RE → Option Char → List Char →
    (Option Char → List Char → Option (List Char)) → Option (List Char)
  | .cls p, _, s, k =>
    match s with
    | c :: t => if p c then k (some c) t else none
    | [] => none
  | .exactly p n, prev, s, k => consumeExact p n prev s k
  | .atLeast p n, prev, s, k => firstSome (((greedyRun p prev s).drop n).reverse) k
  | .opt a, prev, s, k =>
    match matchHere a prev s k with
    | some r => some r
    | none => k prev s
  | .seq a b, prev, s, k => matchHere a prev s (fun pv r => matchHere b pv r k)
  | .bound, prev, s, k =>
    let before := match prev with | some c => isWordChar c | none => false
    let after := match s with | c :: _ => isWordChar c | [] => false
    if before != after then k prev s else none

/-- Leftmost match: returns `(pre, matched, rest)` where `pre` is the text
before the match — the earliest starting position wins, as in `re.search`
and `re.sub`. -/
def firstMatch (r : RE) : Option Char → List Char →
    Option (List Char × List Char × List Char)
  | prev, s =>
    match matchHere r prev s (fun _ rest => some rest) with
    | some rest => some ([], s.take (s.length - rest.length), rest)
    | none =>
      match s with
      | [] => none
      | c :: t =>
        match firstMatch r (some c) t with
        | some (pre, m, rest) => some (c :: pre, m, rest)
        | none => none

/-- Embeds `pattern.search(text) is not None`. -/
def re_search (r : RE) (text : String) : Bool :=
  (firstMatch r none text.toList).isSome

/-- Replace every (non-overlapping, leftmost) match; fuel bounds the
recursion (each of the four patterns only ever matches nonempty text, so the
fuel is never exhausted on them). -/
def subAux (r : RE) (repl : List Char) : Nat → Option Char → List Char → List Char
  | 0, _, s => s
  | fuel + 1, prev, s =>
    match firstMatch r prev s with
    | none => s
    | some (pre, m, rest) =>
      let newPrev := ((pre ++ m).getLast?).orElse (fun _ => prev)
      pre ++ repl ++ subAux r repl fuel newPrev rest

/-- Embeds `pattern.sub(repl, text)`. -/
def re_sub (r : RE) (repl : String) (text : String) : String :=
  String.mk (subAux r repl.toList (text.toList.length + 1) none text.toList)

/-- `[a-zA-Z0-9._%+-]+@[a-zA-Z0-9.-]+\.[a-zA-Z]{2,}` -/
def emailRE : RE :=
  .seq (.atLeast isEmailLocal 1)
    (.seq (.cls (· = '@'))
      (.seq (.atLeast isEmailDomain 1)
        (.seq (.cls (· = '.')) (.atLeast isAsciiAlpha 2))))

/-- `(\+?1[-.\s]?)?\(?\d{3}\)?[-.\s]?\d{3}[-.\s]?\d{4}` -/
def phoneRE : RE :=
  .seq (.opt (.seq (.opt (.cls (· = '+'))) (.seq (.cls (· = '1')) (.opt (.cls isSep)))))
    (.seq (.opt (.cls (· = '(')))
      (.seq (.exactly isDigitCh 3)
        (.seq (.opt (.cls (· = ')')))
          (.seq (.opt (.cls isSep))
            (.seq (.exactly isDigitCh 3)
              (.seq (.opt (.cls isSep)) (.exactly isDigitCh 4)))))))

/-- `\b\d{3}[-.\s]?\d{2}[-.\s]?\d{4}\b` -/
def ssnRE : RE :=
  .seq .bound
    (.seq (.exactly isDigitCh 3)
      (.seq (.opt (.cls isSep))
        (.seq (.exactly isDigitCh 2)
          (.seq (.opt (.cls isSep)) (.seq (.exactly isDigitCh 4) .bound)))))

/-- `\b(?:\d{4}[-.\s]?){3}\d{4}\b` (the `{3}` group expanded). -/
def creditCardRE : RE :=
  .seq .bound
    (.seq (.seq (.exactly isDigitCh 4) (.opt (.cls isSep)))
      (.seq (.seq (.exactly isDigitCh 4) (.opt (.cls isSep)))
        (.seq (.seq (.exactly isDigitCh 4) (.opt (.cls isSep)))
          (.seq (.exactly isDigitCh 4) .bound))))

end Re

namespace PiiComparison

/-- `PII_PATTERNS`, in dict insertion order. -/
def PII_PATTERNS : List (String × Re.RE) :=
  [("email", Re.emailRE), ("phone", Re.phoneRE),
   ("ssn", Re.ssnRE), ("credit_card", Re.creditCardRE)]

/-- `detect_pii_regex` (the list of matched category names; the measured
elapsed time it also returns is an oracle quantity, threaded separately into
the invokers). -/
def detect_pii_regex (text : String) : List String :=
  PII_PATTERNS.foldl
    (fun found pr => if Re.re_search pr.2 text then found ++ [pr.1] else found) []

/-- `anonymize_pii_regex`: sequential substitution in the fixed order
email, phone, ssn, credit_card. -/
def anonymize_pii_regex (text : String) : String :=
  let r := Re.re_sub Re.emailRE ("[EMAIL]") text
  let r := Re.re_sub Re.phoneRE ("[PHONE]") r
  let r := Re.re_sub Re.ssnRE ("[SSN]") r
  Re.re_sub Re.creditCardRE ("[CARD]") r

end PiiComparison

/-! ## Shared model of the remote call

Both scripts issue `client.invoke_model(...)` inside a `try`, so a call
either yields a parsed JSON response body or raises an exception.  The
response-body dictionary is modelled by the fields the scripts read;
optional presence of a key is an `Option`. -/

/-- The `"usage"` section of a response body. -/
structure Usage where
  inputTokens : Option Nat
  outputTokens : Option Nat
deriving DecidableEq

/-- One element of `output.message.content`. -/
structure ContentItem where
  text : Option String
deriving DecidableEq

/-- The `output.message` dictionary; `content` is absent or a list. -/
structure OutputMessage where
  content : Option (List ContentItem)
deriving DecidableEq

/-- The `"output"` section of a response body. -/
structure OutputSection where
  message : Option OutputMessage
deriving DecidableEq

/-- A parsed response body, restricted to the keys the scripts read. -/
structure ResponseBody where
  usage : Option Usage
  stopReason : Option String
  output : Option OutputSection
deriving DecidableEq

/-- An exception raised by the remote call: `benchmark.py` distinguishes
`client.exceptions.ValidationException` from any other `Exception`; the
carried string is `str(e)`. -/
inductive Exc where
  | validation (msg : String)
  | other (msg : String)
deriving DecidableEq

/-- `str(e)`. -/
def Exc.msg : Exc → String
  | .validation m => m
  | .other m => m

/-- `prompt[:50] + "..." if len(prompt) > 50 else prompt`. -/
def truncate_prompt (p : String) : String :=
  if p.length > 50 then String.mk (p.toList.take 50) ++ "..." else p

namespace Benchmark

/-- `BenchmarkResult` of `benchmark.py`. -/
structure BenchmarkResult where
  prompt : String
  with_guardrail : Bool
  latency_ms : ℚ
  input_tokens : Option Nat
  output_tokens : Option Nat
  blocked : Bool
  error : Option String
deriving DecidableEq

/-- `invoke_model` of `benchmark.py`.  Oracle inputs: `callMs` is the
wall-clock time elapsed between `start_time` and the return (or raise) of
`client.invoke_model`; `parseMs` is the further time spent in
`response["body"].read()` and `json.loads`; `outcome` is the remote call's
outcome.  On success `end_time` is taken immediately after the call and
before the body is read, so `latency_ms = callMs`; the body is read and
parsed only afterwards.  On failure `end_time` is taken in the handler, so
`latency_ms = callMs` (the elapsed time up to the raise); only the
`ValidationException` handler applies the `"guardrail"`-substring
heuristic. -/
def invoke_model (prompt : String) (use_guardrail : Bool) (callMs parseMs : ℚ)
    (outcome : ResponseBody ⊕ Exc) : BenchmarkResult :=
  match outcome with
  | .inl rb =>
    let latency_ms : ℚ := callMs
    let _full_elapsed : ℚ := callMs + parseMs
    let input_tokens := rb.usage.bind (fun u => u.inputTokens)
    let output_tokens := rb.usage.bind (fun u => u.outputTokens)
    let stop_reason := rb.stopReason.getD ("")
    let blocked :=
      if use_guardrail then decide (stop_reason = "guardrail_intervened")
      else false
    { prompt := truncate_prompt prompt, with_guardrail := use_guardrail,
      latency_ms := latency_ms, input_tokens := input_tokens,
      output_tokens := output_tokens, blocked := blocked, error := none }
  | .inr (.validation msg) =>
    { prompt := truncate_prompt prompt, with_guardrail := use_guardrail,
      latency_ms := callMs, input_tokens := none, output_tokens := none,
      blocked := contains_guardrail_ci msg, error := some msg }
  | .inr (.other msg) =>
    { prompt := truncate_prompt prompt, with_guardrail := use_guardrail,
      latency_ms := callMs, input_tokens := none, output_tokens := none,
      blocked := false, error := some msg }

/-- The run's caller-observed elapsed time of one `invoke_model` call: on
success the function returns only after the body has been read and parsed,
so the caller observes `callMs + parseMs`; on failure the handler returns
right away, after `callMs`. -/
def invoke_model_elapsed (callMs parseMs : ℚ) (outcome : ResponseBody ⊕ Exc) : ℚ :=
  match outcome with
  | .inl _ => callMs + parseMs
  | .inr _ => callMs

/-- `run_benchmark` of `benchmark.py`.  The environment is the oracle
`invoke : prompt → use_guardrail → iteration index → result` (the embedded
`invoke_model` is total: every exception is caught inside it).  The two
warm-up calls are issued and their results discarded; then for each prompt
and each iteration one result per variant is appended, the without-guardrail
result to the first list and the with-guardrail result to the second. -/
def run_benchmark (invoke : String → Bool → Nat → BenchmarkResult)
    (prompts : List String) (iterations : Nat) :
    List BenchmarkResult × List BenchmarkResult :=
  let _warmupWithout := invoke ("Hello") false 0
  let _warmupWith := invoke ("Hello") true 0
  (prompts.flatMap (fun p => (List.range iterations).map (fun i => invoke p false i)),
   prompts.flatMap (fun p => (List.range iterations).map (fun i => invoke p true i)))

/-- `[r.latency_ms for r in rs if not r.error]` from `analyze_results`. -/
def successful_latencies (rs : List BenchmarkResult) : List ℚ :=
  (rs.filter (fun r => is_falsy_error r.error)).map (fun r => r.latency_ms)

/-- The P95 expression of `analyze_results`:
`sorted(l)[int(len(l)*0.95)] if len(l) >= 20 else max(l)`; the float index
`int(len(l)*0.95)` equals `⌊len(l)*95/100⌋` (IEEE rounding never crosses the
next integer at these magnitudes). -/
def p95_latency (l : List ℚ) : ℚ :=
  if 20 ≤ l.length then (pysorted l).getD (l.length * 95 / 100) 0
  else pymax l

/-- A printed statistics cell: either a number or no data at all (the line
is not printed). -/
inductive DisplayCell where
  | noData
  | value (x : ℚ)
deriving DecidableEq

/-- The per-variant mean cell of `analyze_results`: the mean line is printed
only under `if latencies:`, so an empty successful-sample set shows no
mean. -/
def summary_mean_cell (latencies : List ℚ) : DisplayCell :=
  if latencies.isEmpty then .noData else .value (pymean latencies)

/-- The per-prompt table cell of `analyze_results`
(`statistics.mean(times) if times else 0`, always printed as a number). -/
def detailed_avg_cell (times : List ℚ) : DisplayCell :=
  .value (if times.isEmpty then 0 else pymean times)

/-- `overhead_pct = ((mean_with - mean_without) / mean_without) * 100`. -/
def overhead_pct (mean_without mean_with : ℚ) : ℚ :=
  ((mean_with - mean_without) / mean_without) * 100

/-- The per-result record written for the `"without_guardrail"` list by
`export_results_json`: note it has no `blocked` and no `with_guardrail`
key. -/
structure ExportedWithoutGuardrail where
  prompt : String
  latency_ms : ℚ
  input_tokens : Option Nat
  output_tokens : Option Nat
  error : Option String
deriving DecidableEq

/-- The per-result record written for the `"with_guardrail"` list by
`export_results_json`: it additionally has `blocked`. -/
structure ExportedWithGuardrail where
  prompt : String
  latency_ms : ℚ
  input_tokens : Option Nat
  output_tokens : Option Nat
  blocked : Bool
  error : Option String
deriving DecidableEq

/-- The dictionary `export_results_json` writes for a result of the
`"without_guardrail"` list. -/
def export_without_guardrail (r : BenchmarkResult) : ExportedWithoutGuardrail :=
  { prompt := r.prompt, latency_ms := r.latency_ms,
    input_tokens := r.input_tokens, output_tokens := r.output_tokens,
    error := r.error }

/-- The dictionary `export_results_json` writes for a result of the
`"with_guardrail"` list. -/
def export_with_guardrail (r : BenchmarkResult) : ExportedWithGuardrail :=
  { prompt := r.prompt, latency_ms := r.latency_ms,
    input_tokens := r.input_tokens, output_tokens := r.output_tokens,
    blocked := r.blocked, error := r.error }

/-- Re-import of a `"without_guardrail"` record: `with_guardrail` is implied
by the list key; the export has no `blocked` key, so a re-importer can only
default it (here to the dataclass's only guardrail-free success value,
`false`). -/
def import_without_guardrail (e : ExportedWithoutGuardrail) : BenchmarkResult :=
  { prompt := e.prompt, with_guardrail := false, latency_ms := e.latency_ms,
    input_tokens := e.input_tokens, output_tokens := e.output_tokens,
    blocked := false, error := e.error }

/-- Re-import of a `"with_guardrail"` record: `with_guardrail` is implied by
the list key, every other field is present in the record. -/
def import_with_guardrail (e : ExportedWithGuardrail) : BenchmarkResult :=
  { prompt := e.prompt, with_guardrail := true, latency_ms := e.latency_ms,
    input_tokens := e.input_tokens, output_tokens := e.output_tokens,
    blocked := e.blocked, error := e.error }

end Benchmark

namespace PiiComparison

/-- `BenchmarkResult` of `benchmark_pii_comparison.py`. -/
structure BenchmarkResult where
  prompt : String
  method : String
  latency_ms : ℚ
  pii_check_ms : ℚ
  total_ms : ℚ
  pii_found : List String
  blocked : Bool
  error : Option String
deriving DecidableEq

/-- `invoke_no_protection`.  Here the `try` block reads and parses the body
*before* taking the latency, so on success `latency_ms = callMs + parseMs`;
on failure the elapsed time up to the raise (`callMs`) is recorded. -/
def invoke_no_protection (prompt : String) (callMs parseMs : ℚ)
    (outcome : ResponseBody ⊕ Exc) : BenchmarkResult :=
  match outcome with
  | .inl _rb =>
    let latency := callMs + parseMs
    { prompt := truncate_prompt prompt, method := "no_protection",
      latency_ms := latency, pii_check_ms := 0, total_ms := latency,
      pii_found := [], blocked := false, error := none }
  | .inr e =>
    { prompt := truncate_prompt prompt, method := "no_protection",
      latency_ms := callMs, pii_check_ms := 0, total_ms := callMs,
      pii_found := [], blocked := false, error := some e.msg }

/-- `invoke_with_guardrail`.  The latency is taken immediately after the
call and *before* `response["body"].read()` / `json.loads`, so on success
`latency_ms = callMs` and the parse cost is excluded.  `blocked` is
`response_body.get("stopReason") == "guardrail_intervened"` on success and
`"guardrail" in str(e).lower()` on any exception. -/
def invoke_with_guardrail (prompt : String) (callMs parseMs : ℚ)
    (outcome : ResponseBody ⊕ Exc) : BenchmarkResult :=
  match outcome with
  | .inl rb =>
    let latency : ℚ := callMs
    let _full_elapsed : ℚ := callMs + parseMs
    let blocked := decide (rb.stopReason = some ("guardrail_intervened"))
    { prompt := truncate_prompt prompt, method := "guardrail",
      latency_ms := latency, pii_check_ms := 0, total_ms := latency,
      pii_found := [], blocked := blocked, error := none }
  | .inr e =>
    { prompt := truncate_prompt prompt, method := "guardrail",
      latency_ms := callMs, pii_check_ms := 0, total_ms := callMs,
      pii_found := [], blocked := contains_guardrail_ci e.msg,
      error := some e.msg }

/-- `output_text` extraction of `invoke_with_regex`: `""` unless
`response_body["output"]["message"]["content"][0]["text"]` exists. -/
def extract_output_text (rb : ResponseBody) : String :=
  match rb.output with
  | none => ""
  | some out =>
    match out.message with
    | none => ""
    | some msg =>
      match msg.content.getD [] with
      | [] => ""
      | item :: _ => item.text.getD ("")

/-- `invoke_with_regex`.  The input pre-check runs before the timer;
`inputCheckMs` / `outputCheckMs` are the measured elapsed times the two
`detect_pii_regex` calls return (oracle quantities), `callMs` the model
call's elapsed time, `parseMs` the body read/parse time (excluded from
`latency_ms`, which is taken right after the call).  `pii_found` is
`list(set(input_pii + output_pii))`, modelled as first-occurrence
deduplication.  `blocked` is `False` in both branches. -/
def invoke_with_regex (prompt : String) (inputCheckMs callMs parseMs outputCheckMs : ℚ)
    (outcome : ResponseBody ⊕ Exc) : BenchmarkResult :=
  let input_pii := detect_pii_regex prompt
  let _processed_prompt :=
    if input_pii.isEmpty then prompt else anonymize_pii_regex prompt
  match outcome with
  | .inl rb =>
    let model_latency : ℚ := callMs
    let _full_elapsed : ℚ := callMs + parseMs
    let output_text := extract_output_text rb
    let output_pii := detect_pii_regex output_text
    let total_pii_check := inputCheckMs + outputCheckMs
    let all_pii := (input_pii ++ output_pii).eraseDups
    { prompt := truncate_prompt prompt, method := "regex",
      latency_ms := model_latency, pii_check_ms := total_pii_check,
      total_ms := model_latency + total_pii_check,
      pii_found := all_pii, blocked := false, error := none }
  | .inr e =>
    { prompt := truncate_prompt prompt, method := "regex",
      latency_ms := callMs, pii_check_ms := inputCheckMs,
      total_ms := callMs + inputCheckMs,
      pii_found := input_pii, blocked := false, error := some e.msg }

/-- `run_benchmark` of `benchmark_pii_comparison.py`: three oracles, one per
variant (each embedded invoker is total — all exceptions are caught inside
it).  One warm-up call per variant is issued and discarded; then for each
prompt and each iteration one result per variant is appended to its list. -/
def run_benchmark (invoke_np invoke_gr invoke_rx : String → Nat → BenchmarkResult)
    (prompts : List String) (iterations : Nat) :
    List BenchmarkResult × List BenchmarkResult × List BenchmarkResult :=
  let _warmupNp := invoke_np ("Hello") 0
  let _warmupGr := invoke_gr ("Hello") 0
  let _warmupRx := invoke_rx ("Hello") 0
  (prompts.flatMap (fun p => (List.range iterations).map (fun i => invoke_np p i)),
   prompts.flatMap (fun p => (List.range iterations).map (fun i => invoke_gr p i)),
   prompts.flatMap (fun p => (List.range iterations).map (fun i => invoke_rx p i)))

/-- The per-variant mean presentation of this script's `analyze_results`:
an empty successful-sample set is skipped entirely (`if not latencies:
continue`). -/
def pii_summary_mean_cell (latencies : List ℚ) : Benchmark.DisplayCell :=
  if latencies.isEmpty then .noData else .value (pymean latencies)

/-- The overhead percentage printed by this script:
`((m / baseline) - 1) * 100`. -/
def pii_overhead_pct (baseline m : ℚ) : ℚ := ((m / baseline) - 1) * 100

/-- The per-result record written by `export_results`: every
`BenchmarkResult` field except `method` (which is the key of the list the
record sits in). -/
structure ExportedResult where
  prompt : String
  latency_ms : ℚ
  pii_check_ms : ℚ
  total_ms : ℚ
  pii_found : List String
  blocked : Bool
  error : Option String
deriving DecidableEq

/-- The dictionary `export_results` writes for one result. -/
def export_result (r : BenchmarkResult) : ExportedResult :=
  { prompt := r.prompt, latency_ms := r.latency_ms,
    pii_check_ms := r.pii_check_ms, total_ms := r.total_ms,
    pii_found := r.pii_found, blocked := r.blocked, error := r.error }

/-- Re-import of one exported record, the `method` taken from the list key
the record was found under. -/
def import_result (method : String) (e : ExportedResult) : BenchmarkResult :=
  { prompt := e.prompt, method := method, latency_ms := e.latency_ms,
    pii_check_ms := e.pii_check_ms, total_ms := e.total_ms,
    pii_found := e.pii_found, blocked := e.blocked, error := e.error }

/-- Successful results of one variant (`if not r.error`). -/
def success_count (rs : List BenchmarkResult) : Nat :=
  (rs.filter (fun r => is_falsy_error r.error)).length

/-- Failed results of one variant. -/
def failure_count (rs : List BenchmarkResult) : Nat :=
  (rs.filter (fun r => !(is_falsy_error r.error))).length

end PiiComparison

namespace Benchmark

/-- Successful results of one variant (`if not r.error`). -/
def success_count (rs : List BenchmarkResult) : Nat :=
  (rs.filter (fun r => is_falsy_error r.error)).length

/-- Failed results of one variant. -/
def failure_count (rs : List BenchmarkResult) : Nat :=
  (rs.filter (fun r => !(is_falsy_error r.error))).length

end Benchmark

/-- A response body carrying none of the optional sections. -/
def plainResponse : ResponseBody :=
  { usage := none, stopReason := none, output := none }

/-- A successful response whose stop reason signals a guardrail
intervention while generated text is also present. -/
def interventionResponse : ResponseBody :=
  { usage := none, stopReason := some ("guardrail_intervened"),
    output := some { message := some { content := some [{ text := some ("partial text") }] } } }

/-! ## Helper lemmas -/

/-- Splitting a list by a Boolean predicate partitions its length. -/
theorem length_filter_add_length_filter_neg {α : Type} (p : α → Bool) (l : List α) :
    (l.filter p).length + (l.filter (fun x => !(p x))).length = l.length := by
  induction l with
  | nil => rfl
  | cons a t ih => rcases hb : p a <;> simp [List.filter_cons, hb] <;> omega

/-- Length of the runner's prompt × iteration traversal. -/
theorem length_flatMap_range_map {α : Type} (g : String → Nat → α)
    (prompts : List String) (iterations : Nat) :
    (prompts.flatMap (fun p => (List.range iterations).map (g p))).length
      = prompts.length * iterations := by
  induction prompts with
  | nil => simp
  | cons p ps ih =>
    simp only [List.flatMap_cons, List.length_append, List.length_map,
      List.length_range, ih, List.length_cons]
    ring

/-- `insertSorted` permutes. -/
theorem insertSorted_perm (x : ℚ) (l : List ℚ) : (insertSorted x l).Perm (x :: l) := by
  induction l with
  | nil => simp [insertSorted]
  | cons y ys ih =>
    by_cases h : x ≤ y
    · simp [insertSorted, h]
    · simp only [insertSorted, if_neg h]
      exact (ih.cons y).trans (List.Perm.swap x y ys)

/-- `insertSorted` preserves ascending order. -/
theorem sorted_insertSorted (x : ℚ) (l : List ℚ) (h : l.Sorted (· ≤ ·)) :
    (insertSorted x l).Sorted (· ≤ ·) := by
  induction l with
  | nil => simp [insertSorted]
  | cons y ys ih =>
    rcases List.sorted_cons.mp h with ⟨hy, hys⟩
    by_cases hxy : x ≤ y
    · simp only [insertSorted, if_pos hxy]
      refine List.sorted_cons.mpr ⟨?_, h⟩
      intro b hb
      rcases List.mem_cons.mp hb with rfl | hb'
      · exact hxy
      · exact hxy.trans (hy _ hb')
    · simp only [insertSorted, if_neg hxy]
      refine List.sorted_cons.mpr ⟨?_, ih hys⟩
      intro b hb
      rcases List.mem_cons.mp ((insertSorted_perm x ys).mem_iff.mp hb) with rfl | hb'
      · exact le_of_not_le hxy
      · exact hy _ hb'

/-- `pysorted` permutes its input. -/
theorem pysorted_perm (l : List ℚ) : (pysorted l).Perm l := by
  induction l with
  | nil => simp [pysorted]
  | cons x xs ih =>
    simp only [pysorted, List.foldr_cons]
    exact (insertSorted_perm x _).trans (ih.cons x)

/-- `pysorted` sorts ascending. -/
theorem sorted_pysorted (l : List ℚ) : (pysorted l).Sorted (· ≤ ·) := by
  induction l with
  | nil => simp [pysorted]
  | cons x xs ih =>
    simp only [pysorted, List.foldr_cons]
    exact sorted_insertSorted x _ ih

/-- Partition counting: the successes are the total minus the failures. -/
theorem success_of_partition {α : Type} (q : α → Bool) (l : List α) (n : Nat)
    (h : l.length = n) :
    (l.filter q).length = n - (l.filter (fun x => !(q x))).length := by
  have hpart := length_filter_add_length_filter_neg q l
  omega

/-! ## Claims -/

/-- C1, counterexample.  The claim says the recorded latency covers the full
remote call including response-body materialization (the timer stops only
after the body has been read and parsed).  In `benchmark.py`'s
`invoke_model` the timer stops immediately after `client.invoke_model`
returns and before `response["body"].read()` / `json.loads` run: with a call
taking 2 ms and the body read/parse taking 1 ms, the recorded latency is
2 ms while the caller-observed time including parsing is 3 ms. -/
theorem C1_counterexample :
    (Benchmark.invoke_model ("p") false 2 1 (Sum.inl plainResponse)).latency_ms = 2 ∧
    Benchmark.invoke_model_elapsed 2 1 (Sum.inl plainResponse) = 2 + 1 ∧
    (Benchmark.invoke_model ("p") false 2 1 (Sum.inl plainResponse)).latency_ms
      ≠ Benchmark.invoke_model_elapsed 2 1 (Sum.inl plainResponse) := by
  refine ⟨rfl, rfl, ?_⟩
  show (2 : ℚ) ≠ 2 + 1
  norm_num

/-- C1 (corrected): in `invoke_model` (`benchmark.py`) and in
`invoke_with_guardrail` / `invoke_with_regex`
(`benchmark_pii_comparison.py`) the wall-clock timer stops immediately after
the remote call returns, before the response body is read and parsed, so
`latency_ms` equals the call's elapsed time and excludes body
materialization; only `invoke_no_protection` stops the timer after the body
has been read and parsed.  On failure every variant records the elapsed time
up to the raise. -/
theorem C1_amended (p : String) (g : Bool) (c pm ic oc : ℚ)
    (rb : ResponseBody) (e : Exc) :
    (Benchmark.invoke_model p g c pm (Sum.inl rb)).latency_ms = c ∧
    (Benchmark.invoke_model p g c pm (Sum.inr e)).latency_ms = c ∧
    Benchmark.invoke_model_elapsed c pm (Sum.inl rb) = c + pm ∧
    (PiiComparison.invoke_with_guardrail p c pm (Sum.inl rb)).latency_ms = c ∧
    (PiiComparison.invoke_with_guardrail p c pm (Sum.inr e)).latency_ms = c ∧
    (PiiComparison.invoke_with_regex p ic c pm oc (Sum.inl rb)).latency_ms = c ∧
    (PiiComparison.invoke_with_regex p ic c pm oc (Sum.inr e)).latency_ms = c ∧
    (PiiComparison.invoke_no_protection p c pm (Sum.inl rb)).latency_ms = c + pm ∧
    (PiiComparison.invoke_no_protection p c pm (Sum.inr e)).latency_ms = c := by
  cases e <;>
    simp [Benchmark.invoke_model, Benchmark.invoke_model_elapsed,
      PiiComparison.invoke_with_guardrail, PiiComparison.invoke_with_regex,
      PiiComparison.invoke_no_protection]

/-- C2: the analyzer's 95th percentile over the successful latency samples:
with fewer than 20 samples it is the maximum, otherwise the element at index
`⌊0.95 · n⌋` of the ascending-sorted latency list (nearest rank, not
interpolated); `pysorted` is indeed ascending and a permutation of the
input, and on the two concrete sample lists of the claim the value is 50
resp. 200. -/
theorem C2_p95 (l l2 : List ℚ) (h : l.length < 20) (h2 : 20 ≤ l2.length) :
    Benchmark.p95_latency l = pymax l ∧
    Benchmark.p95_latency l2 = (pysorted l2).getD (l2.length * 95 / 100) 0 ∧
    (pysorted l2).Sorted (· ≤ ·) ∧
    (pysorted l2).Perm l2 ∧
    Benchmark.p95_latency [10, 20, 30, 40, 50] = 50 ∧
    Benchmark.p95_latency
      [10, 20, 30, 40, 50, 60, 70, 80, 90, 100,
       110, 120, 130, 140, 150, 160, 170, 180, 190, 200] = 200 := by
  refine ⟨?_, ?_, sorted_pysorted l2, pysorted_perm l2, by decide, by decide⟩
  · simp [Benchmark.p95_latency, Nat.not_le.mpr h]
  · simp [Benchmark.p95_latency, h2]

/-- C3: for a prompt set of size P and iteration count I each runner records
exactly P × I results per variant (the discarded warm-up calls are never
recorded, and every embedded invoker is total — an exception inside one call
is caught there and never prevents the remaining calls), and the successful
(error-free, in Python truthiness) count per variant equals P × I minus that
variant's failure count.  This holds for any environment oracle, i.e. for
any pattern of per-call failures. -/
theorem C3_runner_counts
    (invoke : String → Bool → Nat → Benchmark.BenchmarkResult)
    (inp ingr inrx : String → Nat → PiiComparison.BenchmarkResult)
    (prompts : List String) (iterations : Nat) :
    ((Benchmark.run_benchmark invoke prompts iterations).1.length
        = prompts.length * iterations) ∧
    ((Benchmark.run_benchmark invoke prompts iterations).2.length
        = prompts.length * iterations) ∧
    (Benchmark.success_count (Benchmark.run_benchmark invoke prompts iterations).1
        = prompts.length * iterations
          - Benchmark.failure_count (Benchmark.run_benchmark invoke prompts iterations).1) ∧
    (Benchmark.success_count (Benchmark.run_benchmark invoke prompts iterations).2
        = prompts.length * iterations
          - Benchmark.failure_count (Benchmark.run_benchmark invoke prompts iterations).2) ∧
    ((PiiComparison.run_benchmark inp ingr inrx prompts iterations).1.length
        = prompts.length * iterations) ∧
    ((PiiComparison.run_benchmark inp ingr inrx prompts iterations).2.1.length
        = prompts.length * iterations) ∧
    ((PiiComparison.run_benchmark inp ingr inrx prompts iterations).2.2.length
        = prompts.length * iterations) ∧
    (PiiComparison.success_count
        (PiiComparison.run_benchmark inp ingr inrx prompts iterations).1
      = prompts.length * iterations
        - PiiComparison.failure_count
            (PiiComparison.run_benchmark inp ingr inrx prompts iterations).1) ∧
    (PiiComparison.success_count
        (PiiComparison.run_benchmark inp ingr inrx prompts iterations).2.1
      = prompts.length * iterations
        - PiiComparison.failure_count
            (PiiComparison.run_benchmark inp ingr inrx prompts iterations).2.1) ∧
    (PiiComparison.success_count
        (PiiComparison.run_benchmark inp ingr inrx prompts iterations).2.2
      = prompts.length * iterations
        - PiiComparison.failure_count
            (PiiComparison.run_benchmark inp ingr inrx prompts iterations).2.2) := by
  refine ⟨?_, ?_, ?_, ?_, ?_, ?_, ?_, ?_, ?_, ?_⟩
  · exact length_flatMap_range_map (fun p i => invoke p false i) prompts iterations
  · exact length_flatMap_range_map (fun p i => invoke p true i) prompts iterations
  · exact success_of_partition _ _ _
      (length_flatMap_range_map (fun p i => invoke p false i) prompts iterations)
  · exact success_of_partition _ _ _
      (length_flatMap_range_map (fun p i => invoke p true i) prompts iterations)
  · exact length_flatMap_range_map (fun p i => inp p i) prompts iterations
  · exact length_flatMap_range_map (fun p i => ingr p i) prompts iterations
  · exact length_flatMap_range_map (fun p i => inrx p i) prompts iterations
  · exact success_of_partition _ _ _
      (length_flatMap_range_map (fun p i => inp p i) prompts iterations)
  · exact success_of_partition _ _ _
      (length_flatMap_range_map (fun p i => ingr p i) prompts iterations)
  · exact success_of_partition _ _ _
      (length_flatMap_range_map (fun p i => inrx p i) prompts iterations)

/-- C4, counterexample.  The claim says re-reading the JSON export
reconstructs every field of every recorded result for every variant.  The
`"without_guardrail"` records written by `export_results_json` have no
`blocked` key, so two results differing only in `blocked` export
identically and no re-importer can reconstruct that field. -/
theorem C4_counterexample :
    ¬ ∃ imp : Benchmark.ExportedWithoutGuardrail → Benchmark.BenchmarkResult,
        ∀ r : Benchmark.BenchmarkResult,
          imp (Benchmark.export_without_guardrail r) = r := by
  rintro ⟨imp, h⟩
  exact absurd
    ((h { prompt := "p", with_guardrail := false, latency_ms := 1,
          input_tokens := none, output_tokens := none, blocked := false,
          error := some ("ValidationException: guardrail denied") }).symm.trans
      (h { prompt := "p", with_guardrail := false, latency_ms := 1,
           input_tokens := none, output_tokens := none, blocked := true,
           error := some ("ValidationException: guardrail denied") }))
    (by decide)

/-- C4 (corrected): re-reading the export reconstructs every exported field
exactly.  For the `"with_guardrail"` list of `benchmark.py` and for every
variant of `benchmark_pii_comparison.py` that is every result field (the
variant itself being the list key); for the `"without_guardrail"` list the
export omits `blocked`, so everything except that one field round-trips and
a re-importer can only default `blocked`. -/
theorem C4_amended (r : Benchmark.BenchmarkResult) (hr : r.with_guardrail = true)
    (t : Benchmark.BenchmarkResult) (ht : t.with_guardrail = false)
    (s : PiiComparison.BenchmarkResult) (m : String) (hs : s.method = m) :
    Benchmark.import_with_guardrail (Benchmark.export_with_guardrail r) = r ∧
    Benchmark.import_without_guardrail (Benchmark.export_without_guardrail t)
      = { t with blocked := false } ∧
    PiiComparison.import_result m (PiiComparison.export_result s) = s := by
  refine ⟨?_, ?_, ?_⟩
  · cases r
    simp_all [Benchmark.import_with_guardrail, Benchmark.export_with_guardrail]
  · cases t
    simp_all [Benchmark.import_without_guardrail, Benchmark.export_without_guardrail]
  · cases s
    simp_all [PiiComparison.import_result, PiiComparison.export_result]

/-- C4, witness for the corrected claim at concrete results. -/
theorem C4_amended_witness :
    Benchmark.import_with_guardrail (Benchmark.export_with_guardrail
        { prompt := "q", with_guardrail := true, latency_ms := 7,
          input_tokens := some 3, output_tokens := none, blocked := true,
          error := none })
      = { prompt := "q", with_guardrail := true, latency_ms := 7,
          input_tokens := some 3, output_tokens := none, blocked := true,
          error := none } ∧
    Benchmark.import_without_guardrail (Benchmark.export_without_guardrail
        { prompt := "q", with_guardrail := false, latency_ms := 7,
          input_tokens := none, output_tokens := some 5, blocked := false,
          error := none })
      = { prompt := "q", with_guardrail := false, latency_ms := 7,
          input_tokens := none, output_tokens := some 5, blocked := false,
          error := none } ∧
    PiiComparison.import_result ("regex") (PiiComparison.export_result
        { prompt := "q", method := "regex", latency_ms := 7, pii_check_ms := 1,
          total_ms := 8, pii_found := ["email"], blocked := false,
          error := none })
      = { prompt := "q", method := "regex", latency_ms := 7, pii_check_ms := 1,
          total_ms := 8, pii_found := ["email"], blocked := false,
          error := none } :=
  C4_amended
    { prompt := "q", with_guardrail := true, latency_ms := 7,
      input_tokens := some 3, output_tokens := none, blocked := true,
      error := none } rfl
    { prompt := "q", with_guardrail := false, latency_ms := 7,
      input_tokens := none, output_tokens := some 5, blocked := false,
      error := none } rfl
    { prompt := "q", method := "regex", latency_ms := 7, pii_check_ms := 1,
      total_ms := 8, pii_found := ["email"], blocked := false,
      error := none } ("regex") rfl

/-- C5, counterexample.  The claim says that in every variant a successful
response with stop reason `"guardrail_intervened"` yields `blocked = true`.
The baseline variants never inspect the stop reason: `invoke_model` checks
it only under `if use_guardrail`, and `invoke_no_protection` /
`invoke_with_regex` hard-code `blocked = False` on success — so a response
carrying the intervention stop reason (and generated text) yields
`blocked = false` there. -/
theorem C5_counterexample :
    interventionResponse.stopReason = some ("guardrail_intervened") ∧
    (Benchmark.invoke_model ("p") false 5 1 (Sum.inl interventionResponse)).blocked
      = false ∧
    (PiiComparison.invoke_no_protection ("p") 5 1 (Sum.inl interventionResponse)).blocked
      = false ∧
    (PiiComparison.invoke_with_regex ("p") 0 5 1 0 (Sum.inl interventionResponse)).blocked
      = false := by
  refine ⟨rfl, rfl, rfl, rfl⟩

/-- C5 (corrected): in the guardrail variants — `invoke_model` with
`use_guardrail = True` and `invoke_with_guardrail` — a successful response
whose stop reason equals `"guardrail_intervened"` yields `blocked = true`,
regardless of whether generated text is also present; the baseline and
regex variants never set `blocked` from the stop reason. -/
theorem C5_amended (p : String) (c pm : ℚ) (rb : ResponseBody)
    (h : rb.stopReason = some ("guardrail_intervened")) :
    (Benchmark.invoke_model p true c pm (Sum.inl rb)).blocked = true ∧
    (PiiComparison.invoke_with_guardrail p c pm (Sum.inl rb)).blocked = true := by
  constructor <;>
    simp [Benchmark.invoke_model, PiiComparison.invoke_with_guardrail, h]

/-- C5, witness: the corrected claim at a concrete intervention response
that also carries generated text. -/
theorem C5_amended_witness :
    (Benchmark.invoke_model ("p") true 3 1 (Sum.inl interventionResponse)).blocked
      = true ∧
    (PiiComparison.invoke_with_guardrail ("p") 3 1 (Sum.inl interventionResponse)).blocked
      = true :=
  C5_amended ("p") 3 1 interventionResponse rfl

/-- C6, counterexample.  The claim says an empty successful-sample group is
reported as "no data" rather than zero.  The per-prompt table of
`analyze_results` (`benchmark.py`) computes
`statistics.mean(times) if times else 0` and always prints the number, so an
empty per-prompt group is displayed as the numeric value 0, not as a no-data
marker. -/
theorem C6_counterexample :
    Benchmark.detailed_avg_cell [] = Benchmark.DisplayCell.value 0 ∧
    Benchmark.detailed_avg_cell [] ≠ Benchmark.DisplayCell.noData := by
  refine ⟨rfl, by decide⟩

/-- C6 (corrected): the per-variant summary blocks never compute a mean of
an empty successful-sample set — `benchmark.py` prints the statistics only
under `if latencies:` and `benchmark_pii_comparison.py` skips the variant
(`if not latencies: continue`), showing no data; the per-prompt table,
however, displays 0 for an empty group.  In all cases the mean is only ever
taken of a nonempty list, so no exception escapes. -/
theorem C6_amended :
    Benchmark.summary_mean_cell [] = Benchmark.DisplayCell.noData ∧
    PiiComparison.pii_summary_mean_cell [] = Benchmark.DisplayCell.noData ∧
    Benchmark.detailed_avg_cell [] = Benchmark.DisplayCell.value 0 :=
  ⟨rfl, rfl, rfl⟩

/-- C7, counterexample.  The claim says that in every variant, for every
exception type, a failure whose text contains "guardrail"
(case-insensitively) is reclassified as blocked.  In `benchmark.py` only the
`ValidationException` handler applies the heuristic: a generic exception
whose text contains "Guardrail" is recorded as an error with
`blocked = false`. -/
theorem C7_counterexample :
    contains_guardrail_ci ("Guardrail policy rejected the request") = true ∧
    (Benchmark.invoke_model ("p") true 4 0
        (Sum.inr (Exc.other ("Guardrail policy rejected the request")))).error
      = some ("Guardrail policy rejected the request") ∧
    (Benchmark.invoke_model ("p") true 4 0
        (Sum.inr (Exc.other ("Guardrail policy rejected the request")))).blocked
      = false := by
  refine ⟨by decide, rfl, rfl⟩

/-- C7 (corrected): on failure every variant captures the exception text in
`error`; the "guardrail"-substring reclassification applies in
`invoke_model` only for `ValidationException` (a generic exception never
sets `blocked`), in `invoke_with_guardrail` for every exception type, and
never in the baseline or regex variants. -/
theorem C7_amended (p : String) (g : Bool) (c pm ic oc : ℚ) (msg : String)
    (e : Exc) :
    (Benchmark.invoke_model p g c pm (Sum.inr (Exc.validation msg))).error
      = some msg ∧
    (Benchmark.invoke_model p g c pm (Sum.inr (Exc.validation msg))).blocked
      = contains_guardrail_ci msg ∧
    (Benchmark.invoke_model p g c pm (Sum.inr (Exc.other msg))).error = some msg ∧
    (Benchmark.invoke_model p g c pm (Sum.inr (Exc.other msg))).blocked = false ∧
    (PiiComparison.invoke_with_guardrail p c pm (Sum.inr e)).error = some e.msg ∧
    (PiiComparison.invoke_with_guardrail p c pm (Sum.inr e)).blocked
      = contains_guardrail_ci e.msg ∧
    (PiiComparison.invoke_no_protection p c pm (Sum.inr e)).error = some e.msg ∧
    (PiiComparison.invoke_no_protection p c pm (Sum.inr e)).blocked = false ∧
    (PiiComparison.invoke_with_regex p ic c pm oc (Sum.inr e)).error = some e.msg ∧
    (PiiComparison.invoke_with_regex p ic c pm oc (Sum.inr e)).blocked = false := by
  refine ⟨rfl, rfl, rfl, rfl, rfl, rfl, rfl, rfl, rfl, rfl⟩

/-- C8: on `"My email is a@b.com, call 555-123-4567"` the local PII detector
finds exactly the categories email and phone (in the fixed pattern order),
and anonymization — which substitutes the placeholders in the deterministic
order email, phone, ssn, credit_card — produces
`"My email is [EMAIL], call [PHONE]"`, which contains neither the original
email substring nor the original phone substring. -/
theorem C8_pii_detector :
    PiiComparison.detect_pii_regex ("My email is a@b.com, call 555-123-4567")
      = ["email", "phone"] ∧
    PiiComparison.anonymize_pii_regex ("My email is a@b.com, call 555-123-4567")
      = "My email is [EMAIL], call [PHONE]" ∧
    contains_sub
      (PiiComparison.anonymize_pii_regex
        ("My email is a@b.com, call 555-123-4567")).toList
      ("a@b.com".toList) = false ∧
    contains_sub
      (PiiComparison.anonymize_pii_regex
        ("My email is a@b.com, call 555-123-4567")).toList
      ("555-123-4567".toList) = false := by
  refine ⟨by decide, by decide, by decide, by decide⟩

/-- C9: every result of the three invokers of
`benchmark_pii_comparison.py` satisfies
`total_ms = latency_ms + pii_check_ms`, hence (with nonnegative measured
durations) `total_ms ≥ latency_ms ≥ 0`, and `pii_check_ms = 0` in the
variants with no local pattern matching — in the success and in the error
branch alike, for any call outcome. -/
theorem C9_total_invariant (p : String) (c pm ic oc : ℚ)
    (hc : 0 ≤ c) (hpm : 0 ≤ pm) (hic : 0 ≤ ic) (hoc : 0 ≤ oc)
    (outcome : ResponseBody ⊕ Exc) :
    ((PiiComparison.invoke_no_protection p c pm outcome).total_ms
        = (PiiComparison.invoke_no_protection p c pm outcome).latency_ms
          + (PiiComparison.invoke_no_protection p c pm outcome).pii_check_ms ∧
      (PiiComparison.invoke_no_protection p c pm outcome).latency_ms
        ≤ (PiiComparison.invoke_no_protection p c pm outcome).total_ms ∧
      0 ≤ (PiiComparison.invoke_no_protection p c pm outcome).latency_ms) ∧
    ((PiiComparison.invoke_with_guardrail p c pm outcome).total_ms
        = (PiiComparison.invoke_with_guardrail p c pm outcome).latency_ms
          + (PiiComparison.invoke_with_guardrail p c pm outcome).pii_check_ms ∧
      (PiiComparison.invoke_with_guardrail p c pm outcome).latency_ms
        ≤ (PiiComparison.invoke_with_guardrail p c pm outcome).total_ms ∧
      0 ≤ (PiiComparison.invoke_with_guardrail p c pm outcome).latency_ms) ∧
    ((PiiComparison.invoke_with_regex p ic c pm oc outcome).total_ms
        = (PiiComparison.invoke_with_regex p ic c pm oc outcome).latency_ms
          + (PiiComparison.invoke_with_regex p ic c pm oc outcome).pii_check_ms ∧
      (PiiComparison.invoke_with_regex p ic c pm oc outcome).latency_ms
        ≤ (PiiComparison.invoke_with_regex p ic c pm oc outcome).total_ms ∧
      0 ≤ (PiiComparison.invoke_with_regex p ic c pm oc outcome).latency_ms) ∧
    (PiiComparison.invoke_no_protection p c pm outcome).pii_check_ms = 0 ∧
    (PiiComparison.invoke_with_guardrail p c pm outcome).pii_check_ms = 0 := by
  refine ⟨⟨?_, ?_, ?_⟩, ⟨?_, ?_, ?_⟩, ⟨?_, ?_, ?_⟩, ?_, ?_⟩ <;>
    rcases outcome with rb | e <;>
    simp [PiiComparison.invoke_no_protection, PiiComparison.invoke_with_guardrail,
      PiiComparison.invoke_with_regex] <;>
    linarith

/-- C9, witness: the invariant of the no-protection variant at concrete
durations and outcome. -/
theorem C9_witness :
    (PiiComparison.invoke_no_protection ("w") 2 3 (Sum.inl plainResponse)).total_ms
      = (PiiComparison.invoke_no_protection ("w") 2 3 (Sum.inl plainResponse)).latency_ms
        + (PiiComparison.invoke_no_protection ("w") 2 3 (Sum.inl plainResponse)).pii_check_ms ∧
    (PiiComparison.invoke_no_protection ("w") 2 3 (Sum.inl plainResponse)).latency_ms
      ≤ (PiiComparison.invoke_no_protection ("w") 2 3 (Sum.inl plainResponse)).total_ms ∧
    0 ≤ (PiiComparison.invoke_no_protection ("w") 2 3 (Sum.inl plainResponse)).latency_ms :=
  (C9_total_invariant ("w") 2 3 5 7 (by norm_num) (by norm_num) (by norm_num)
    (by norm_num) (Sum.inl plainResponse)).1

/-- C10: the percentage overhead of a variant relative to the baseline is
the difference of mean latencies divided by the baseline mean, times 100:
`benchmark.py` computes exactly that, `benchmark_pii_comparison.py` computes
the algebraically equal `((mean / baseline) - 1) * 100` (equal whenever the
baseline mean is nonzero; arithmetic modelled exactly over ℚ), and at a
baseline mean of 100 ms and a guardrail mean of 120 ms both equal
exactly +20.0 %. -/
theorem C10_overhead (lwo lw : List ℚ) (b m : ℚ)
    (h1 : pymean lwo = 100) (h2 : pymean lw = 120) (hb : b ≠ 0) :
    Benchmark.overhead_pct (pymean lwo) (pymean lw) = 20 ∧
    PiiComparison.pii_overhead_pct (pymean lwo) (pymean lw) = 20 ∧
    PiiComparison.pii_overhead_pct b m = Benchmark.overhead_pct b m := by
  rw [h1, h2]
  refine ⟨by norm_num [Benchmark.overhead_pct],
    by norm_num [PiiComparison.pii_overhead_pct], ?_⟩
  unfold Benchmark.overhead_pct PiiComparison.pii_overhead_pct
  field_simp

/-- C10, witness: concrete latency lists with means 100 and 120. -/
theorem C10_witness :
    Benchmark.overhead_pct (pymean [100]) (pymean [120]) = 20 ∧
    PiiComparison.pii_overhead_pct (pymean [100]) (pymean [120]) = 20 ∧
    PiiComparison.pii_overhead_pct 100 120 = Benchmark.overhead_pct 100 120 :=
  C10_overhead [100] [120] 100 120 (by norm_num [pymean]) (by norm_num [pymean])
    (by norm_num)

/-- C2, witness: the percentile characterization applied at the claim's two
concrete sample lists (5 samples, fewer than 20, and exactly 20 samples). -/
theorem C2_p95_witness :
    Benchmark.p95_latency [10, 20, 30, 40, 50] = pymax [10, 20, 30, 40, 50] ∧
    Benchmark.p95_latency
        [10, 20, 30, 40, 50, 60, 70, 80, 90, 100,
         110, 120, 130, 140, 150, 160, 170, 180, 190, 200]
      = (pysorted
            [10, 20, 30, 40, 50, 60, 70, 80, 90, 100,
             110, 120, 130, 140, 150, 160, 170, 180, 190, 200]).getD
          ([10, 20, 30, 40, 50, 60, 70, 80, 90, 100,
            110, 120, 130, 140, 150, 160, 170, 180, 190, 200].length * 95 / 100) 0 :=
  have h := C2_p95 [10, 20, 30, 40, 50]
    [10, 20, 30, 40, 50, 60, 70, 80, 90, 100,
     110, 120, 130, 140, 150, 160, 170, 180, 190, 200]
    (by decide) (by decide)
  ⟨h.1, h.2.1⟩
